import Mathlib

/-!
Verification development for the `cellium-mcp-client` repository: a shallow
embedding of the connection/request-proxy subsystem (the remote transcoder,
the connection-state tracker, the retry controller, the error boundary and
the per-method handlers), together with theorems settling the spec's claims.

The repository layers three revisions of the same client:
* `part_003` — the early revision holding the retry/backoff controller
  (`handleConnectionError` / `reconnect`);
* `src/client.ts` (v1.1.2) — per-handler try/catch fallbacks;
* `part_004` (v1.1.3) — the `withErrorBoundary` wrapper plus
  `getSafeErrorResponse`, the pending-request map and `disconnect` cleanup.

Each definition below is translated from the corresponding source function;
stateful methods become explicit state-passing functions, network effects
become oracle parameters (`FetchOutcome`), and thrown JavaScript errors
become `Except String` values carrying the `Error.message` string.
-/

namespace Cellium

/-- JSON values, as produced and consumed by the handlers. -/
inductive Json where
  | str : String → Json
  | num : Int → Json
  | bool : Bool → Json
  | null : Json
  | arr : List Json → Json
  | obj : List (String × Json) → Json

/-- Field lookup in a JSON object (first binding wins, as in a JS object). -/
def lookupField : List (String × Json) → String → Option Json
  | [], _ => none
  | (k, v) :: rest, key => if k == key then some v else lookupField rest key

/-- Look up key `k` when `j` is an object. -/
def Json.field : Json → String → Option Json
  | .obj fs, key => lookupField fs key
  | _, _ => none

/-- First element of a JSON array, if any. -/
def firstElem : Json → Option Json
  | .arr (x :: _) => some x
  | _ => none

/-- Extract the string payload of a JSON string. -/
def asStr : Json → Option String
  | .str s => some s
  | _ => none

/-! ### JavaScript `String.prototype.replace` with a string pattern

`endpoint.replace('/sse', '/mcp')` replaces the FIRST occurrence of the
pattern anywhere in the string (not a suffix), leaving the string unchanged
when the pattern does not occur. -/

/-- Test whether `pat` is an initial segment of `s`. -/
def startsWithList : List Char → List Char → Bool
  | _, [] => true
  | [], _ :: _ => false
  | c :: cs, p :: ps => c == p && startsWithList cs ps

/-- Replace the first occurrence of `pat` in the character list by `repl`
(JS `String.prototype.replace` with a string pattern). -/
def replaceFirstAux (pat repl : List Char) : List Char → List Char
  | [] => if pat.isEmpty then repl else []
  | c :: rest =>
    if startsWithList (c :: rest) pat then repl ++ (c :: rest).drop pat.length
    else c :: replaceFirstAux pat repl rest

/-- JS `s.replace(pat, repl)` for a string pattern, on `String`. -/
def replaceFirst (s pat repl : String) : String :=
  ⟨replaceFirstAux pat.data repl.data s.data⟩

/-- Test whether `pat` occurs somewhere in `s`. -/
def hasSubstr : List Char → List Char → Bool
  | [], pat => pat.isEmpty
  | c :: rest, pat => startsWithList (c :: rest) pat || hasSubstr rest pat

theorem replaceFirstAux_of_not_hasSubstr (pat repl : List Char) :
    ∀ s : List Char, hasSubstr s pat = false → replaceFirstAux pat repl s = s := by
  intro s
  induction s with
  | nil =>
    intro h
    simp only [hasSubstr] at h
    simp [replaceFirstAux, h]
  | cons c rest ih =>
    intro h
    simp only [hasSubstr, Bool.or_eq_false_iff] at h
    simp [replaceFirstAux, h.1, ih h.2]

theorem replaceFirst_of_not_hasSubstr (s pat repl : String)
    (h : hasSubstr s.data pat.data = false) : replaceFirst s pat repl = s := by
  unfold replaceFirst
  rw [replaceFirstAux_of_not_hasSubstr pat.data repl.data s.data h]

/-! ### Remote transcoder (`makeHttpRequest` / `testConnection`)

Network effects are modelled by an oracle value `FetchOutcome` describing
what the single `fetch` of the call does: either the fetch itself throws
(network error), or it yields a response with an HTTP status and a body.
The body's JSON parse is modelled as data (`BodyParse`), since `JSON.parse`
is an external library: `malformed` is a body on which the parse throws,
`envelope` is a parsed JSON-RPC envelope whose `error` field is either a
truthy error object or absent/falsy. -/

/-- Configuration record consumed by the client (token + endpoint). -/
structure HttpConfig where
  token : String
  endpoint : String

/-- The rewritten URL used by every outbound POST:
`this.config.endpoint.replace('/sse', '/mcp')`. -/
def mcpEndpoint (cfg : HttpConfig) : String :=
  replaceFirst cfg.endpoint "/sse" "/mcp"

/-- An RPC-level error object `{code, message}` in a response body. -/
structure RpcError where
  code : Int
  message : String

/-- Result of `JSON.parse` on the response text. -/
inductive BodyParse where
  /-- The body does not parse; `parseMessage` is the parse error's message. -/
  | malformed (parseMessage : String)
  /-- A parsed envelope: `err` is the (truthy) `error` member if present,
  `result` the `result` member. -/
  | envelope (err : Option RpcError) (result : Json)

/-- What one `fetch` call does. -/
inductive FetchOutcome where
  /-- `fetch` itself rejects (DNS failure, connection refused, ...). -/
  | networkError (message : String)
  /-- `fetch` resolves with `response.ok`, `response.status`,
  `response.statusText` and a body. -/
  | response (ok : Bool) (status : Nat) (statusText : String) (body : BodyParse)

/-- Kind of an outbound POST: the liveness probe or the forward of a method. -/
inductive PostKind where
  | liveness
  | forward
deriving DecidableEq

/-- One outbound HTTP POST as observed on the wire. -/
structure PostOp where
  kind : PostKind
  url : String
  rpcMethod : String

/-- The POST issued by `testConnection` (a `ping` to the rewritten URL). -/
def livenessPost (cfg : HttpConfig) : PostOp :=
  ⟨PostKind.liveness, mcpEndpoint cfg, "ping"⟩

/-- The POST issued by the forwarding part of `makeHttpRequest`. -/
def forwardPost (cfg : HttpConfig) (method : String) : PostOp :=
  ⟨PostKind.forward, mcpEndpoint cfg, method⟩

/-- Whether the POST is the liveness probe. -/
def PostOp.isLiveness (p : PostOp) : Bool :=
  match p.kind with
  | .liveness => true
  | .forward => false

/-- Whether the POST carries a forwarded method. -/
def PostOp.isForward (p : PostOp) : Bool :=
  match p.kind with
  | .liveness => false
  | .forward => true

/-- The `testConnection` method (part_004 lines 647-689): POST a `ping`, throw
`Connection test failed: HTTP <status>` on a non-ok status, propagate the
parse error of `response.json()` on a malformed body, throw
`Connection test failed: <message>` when the body carries an error object. -/
def testConnectionResult : FetchOutcome → Except String Unit
  | .networkError m => .error m
  | .response ok status _ body =>
    if ok then
      match body with
      | .malformed pm => .error pm
      | .envelope (some e) _ => .error ("Connection test failed: " ++ e.message)
      | .envelope none _ => .ok ()
    else .error ("Connection test failed: HTTP " ++ toString status)

/-- The response-classification inside `makeHttpRequest`'s `try` block
(part_004 lines 424-485): non-ok status throws `HTTP <status>: <statusText>`;
a body that fails to parse throws `Invalid JSON response from server`; a
parsed envelope with a truthy `error` member throws
`Remote server error: <message>`; otherwise the envelope's `result` is
returned. A rejecting `fetch` propagates its own error. -/
def forwardClassify : FetchOutcome → Except String Json
  | .networkError m => .error m
  | .response ok status statusText body =>
    if ok then
      match body with
      | .malformed _ => .error "Invalid JSON response from server"
      | .envelope (some e) _ => .error ("Remote server error: " ++ e.message)
      | .envelope none r => .ok r
    else .error ("HTTP " ++ toString status ++ ": " ++ statusText)

/-- Result of one `makeHttpRequest` call: the value returned or the message
of the error thrown, the value of `isConnected` afterwards, and the POSTs
issued on the wire (in order). -/
structure CallResult where
  outcome : Except String Json
  connected : Bool
  posts : List PostOp

/-- The forwarding phase of `makeHttpRequest` (reached once `isConnected`
is true): issue the POST, classify the outcome; the `catch` block flips
`isConnected` to false on any failure and rethrows. -/
def forwardPhase (cfg : HttpConfig) (prior : List PostOp) (fetch : FetchOutcome)
    (method : String) : CallResult :=
  match forwardClassify fetch with
  | .ok r => { outcome := .ok r, connected := true, posts := prior ++ [forwardPost cfg method] }
  | .error m => { outcome := .error m, connected := false, posts := prior ++ [forwardPost cfg method] }

/-- The `makeHttpRequest` method (part_004 lines 379-505, client.ts lines 185-236):
if `isConnected` is false, first run `testConnection`; on its failure throw
the fixed message `Cannot connect to remote Cellium server` (the probe's own
error is only logged); on success set `isConnected := true` and forward. -/
def makeHttpRequest (cfg : HttpConfig) (connected : Bool) (ping fetch : FetchOutcome)
    (method : String) : CallResult :=
  if connected then
    forwardPhase cfg [] fetch method
  else
    match testConnectionResult ping with
    | .ok _ => forwardPhase cfg [livenessPost cfg] fetch method
    | .error _ =>
      { outcome := .error "Cannot connect to remote Cellium server",
        connected := false,
        posts := [livenessPost cfg] }

/-! ### Error boundary and method handlers -/

/-- A thrown JavaScript value: an `Error` instance with a message, or any
other value (`error instanceof Error ? error.message : 'Unknown error'`). -/
inductive Thrown where
  | jsError (message : String)
  | nonError

/-- The message used for a thrown value by the handlers' catch blocks. -/
def Thrown.msg : Thrown → String
  | .jsError m => m
  | .nonError => "Unknown error"

/-- The `getSafeErrorResponse` method (part_004 lines 348-377): the method-specific
fallback payload returned by the error boundary. -/
def getSafeErrorResponse (methodName errorMessage : String) : Json :=
  match methodName with
  | "tools/list" => .obj [("tools", .arr [])]
  | "resources/list" => .obj [("resources", .arr [])]
  | "tools/call" =>
    .obj [("content", .arr [.obj [("type", .str "text"),
            ("text", .str ("Error calling tool: " ++ errorMessage))]]),
          ("isError", .bool true)]
  | "resources/read" =>
    .obj [("contents", .arr [.obj [("uri", .str ""),
            ("mimeType", .str "text/plain"),
            ("text", .str ("Error reading resource: " ++ errorMessage))]])]
  | "ping" => .obj []
  | _ => .obj [("error", .str errorMessage)]

/-- The `withErrorBoundary` wrapper (part_004 lines 217-248), applied to a core
handler's outcome: a normal result is returned unchanged; a thrown value is
converted into `getSafeErrorResponse` — nothing is re-thrown, so the wrapped
handler is a total function into `Json`. -/
def withErrorBoundary (methodName : String) (handlerResult : Except Thrown Json) : Json :=
  match handlerResult with
  | .ok r => r
  | .error t => getSafeErrorResponse methodName t.msg

/-- The five proxied request methods whose fallback shapes claim C1 lists. -/
def supportedProxyMethods : List String :=
  ["tools/list", "resources/list", "tools/call", "resources/read", "ping"]

/-- The success-shape schema of each method's response (spec section 6):
`tools/list` a `tools` array, `resources/list` a `resources` array,
`tools/call` a `content` array plus a boolean `isError`, `resources/read` a
`contents` array, `ping` an empty object. -/
def matchesSuccessShape (method : String) (j : Json) : Bool :=
  match method with
  | "tools/list" =>
    match j.field "tools" with
    | some (.arr _) => true
    | _ => false
  | "resources/list" =>
    match j.field "resources" with
    | some (.arr _) => true
    | _ => false
  | "tools/call" =>
    (match j.field "content" with
     | some (.arr _) => true
     | _ => false) &&
    (match j.field "isError" with
     | some (.bool _) => true
     | _ => false)
  | "resources/read" =>
    match j.field "contents" with
    | some (.arr _) => true
    | _ => false
  | "ping" =>
    match j with
    | .obj [] => true
    | _ => false
  | _ => true

/-- The `tools/call` handler of client.ts (lines 117-133): forward, and on
any thrown error return a text content item
`Error calling tool: <message>` with `isError: true`. -/
def toolsCallHandler (cfg : HttpConfig) (connected : Bool) (ping fetch : FetchOutcome)
    (_name : String) : Json :=
  match (makeHttpRequest cfg connected ping fetch "tools/call").outcome with
  | .ok v => v
  | .error m =>
    .obj [("content", .arr [.obj [("type", .str "text"),
            ("text", .str ("Error calling tool: " ++ m))]]),
          ("isError", .bool true)]

/-- The `resources/read` handler of client.ts (lines 148-164): forward, and
on any thrown error return one content item whose `uri` is
`request.params?.uri || ''` (the requested URI, or `''` when it is falsy). -/
def resourcesReadHandlerDirect (cfg : HttpConfig) (connected : Bool)
    (ping fetch : FetchOutcome) (uri : String) : Json :=
  match (makeHttpRequest cfg connected ping fetch "resources/read").outcome with
  | .ok v => v
  | .error m =>
    .obj [("contents", .arr [.obj [
            ("uri", .str (if uri.isEmpty then "" else uri)),
            ("mimeType", .str "text/plain"),
            ("text", .str ("Error reading resource: " ++ m))]])]

/-- The `resources/read` handler of part_004 (lines 317-322): the core
handler forwards and the error boundary converts a thrown error into
`getSafeErrorResponse 'resources/read'` — whose `uri` is always `''`,
ignoring the requested URI. -/
def resourcesReadHandlerBoundary (cfg : HttpConfig) (connected : Bool)
    (ping fetch : FetchOutcome) (_uri : String) : Json :=
  withErrorBoundary "resources/read"
    (match (makeHttpRequest cfg connected ping fetch "resources/read").outcome with
     | .ok v => .ok v
     | .error m => .error (.jsError m))

/-- The `uri` of the first element of a response's `contents` array. -/
def firstContentsUri (j : Json) : Option String :=
  ((((j.field "contents").bind firstElem).bind (fun item => item.field "uri")).bind asStr)

/-- The `text` of the first element of a response's `contents` array. -/
def firstContentsText (j : Json) : Option String :=
  ((((j.field "contents").bind firstElem).bind (fun item => item.field "text")).bind asStr)

/-- Number of elements of a response's `contents` array. -/
def contentsCount (j : Json) : Option Nat :=
  (j.field "contents").bind (fun a =>
    match a with
    | .arr xs => some xs.length
    | _ => none)

/-! ### `initialize` handler (part_004 lines 251-279) -/

/-- The fixed protocol version advertised locally. -/
def mcpProtocolVersion : String := "2024-11-05"

/-- The fixed `initialize` response: protocol version, capability descriptor
advertising `tools` and `resources`, and server info. -/
def initializeResponse : Json :=
  .obj [("protocolVersion", .str mcpProtocolVersion),
        ("capabilities", .obj [("tools", .obj []), ("resources", .obj [])]),
        ("serverInfo", .obj [("name", .str "cellium-mcp-client"),
                             ("version", .str "1.1.3")])]

/-- Outcome of the `initialize` handler: the response returned, whether the
version-mismatch warning was logged, the POSTs issued (always none), and the
`transportState.connected` value afterwards. -/
structure InitOutcome where
  response : Json
  warned : Bool
  posts : List PostOp
  transportConnected : Bool

/-- The `initialize` handler: never forwards; warns when the client's
declared protocol version is truthy (non-empty) AND differs from the fixed
local version (`if (clientProtocolVersion && clientProtocolVersion !==
this.mcpProtocolVersion)`); always returns the same fixed response. The
`isConnected` flag is neither read nor written. -/
def initializeHandler (clientProtocolVersion : String) (_isConnected : Bool) :
    InitOutcome :=
  { response := initializeResponse,
    warned := !clientProtocolVersion.isEmpty &&
              clientProtocolVersion != mcpProtocolVersion,
    posts := [],
    transportConnected := true }

/-! ### Retry/backoff controller (part_003 lines 174-263)

`connect()` runs `testConnection`; on success it resets
`currentRetryCount` to 0 and clears the stored reconnect timer; on failure
it calls `handleConnectionError` and rethrows. `handleConnectionError`
either schedules one reconnect timer with delay `retryDelay` (when
`currentRetryCount < retryAttempts`, incrementing the counter) or calls
`process.exit(1)`. A fired timer runs `reconnect()`, which awaits
`connect()` and, in its own catch, calls `handleConnectionError` a second
time for the same failure. The event loop is modelled sequentially: each
fired timer's connection attempt completes before the next timer runs. -/

/-- Retry-relevant configuration. -/
structure RetryConfig where
  retryAttempts : Nat
  retryDelay : Nat

/-- State of the retry controller, plus observables of the run: every
`setTimeout` delay in order, the number of connection failures, and the
`process.exit` code once called. -/
structure RetryState where
  currentRetryCount : Nat
  isConnected : Bool
  pendingTimers : Nat
  scheduledDelays : List Nat
  failureCount : Nat
  exitCode : Option Nat

/-- The state before the first `connect()`. -/
def initialRetryState : RetryState :=
  { currentRetryCount := 0, isConnected := false, pendingTimers := 0,
    scheduledDelays := [], failureCount := 0, exitCode := none }

/-- The `handleConnectionError` method (part_003 lines 242-254). -/
def handleConnectionError (cfg : RetryConfig) (s : RetryState) : RetryState :=
  if s.currentRetryCount < cfg.retryAttempts then
    { s with currentRetryCount := s.currentRetryCount + 1,
             pendingTimers := s.pendingTimers + 1,
             scheduledDelays := s.scheduledDelays ++ [cfg.retryDelay] }
  else
    { s with exitCode := some 1 }

/-- One `connect()` attempt whose `testConnection` outcome is `ok`
(part_003 lines 174-203): success resets the counter and clears the stored
timer; failure records the failure and runs `handleConnectionError`. -/
def connectStep (cfg : RetryConfig) (ok : Bool) (s : RetryState) : RetryState :=
  if ok then
    { s with isConnected := true, currentRetryCount := 0,
             pendingTimers := s.pendingTimers - 1 }
  else
    handleConnectionError cfg
      { s with isConnected := false, failureCount := s.failureCount + 1 }

/-- A fired reconnect timer (part_003 lines 256-263): run `connect()`; if
it threw and the process is still alive, `reconnect`'s catch runs
`handleConnectionError` once more for the same failure. -/
def reconnectStep (cfg : RetryConfig) (ok : Bool) (s : RetryState) : RetryState :=
  let s1 := connectStep cfg ok s
  if ok then s1
  else if s1.exitCode.isSome then s1
  else handleConnectionError cfg s1

/-- Fire pending reconnect timers one at a time while the remote stays
unreachable, until the process exits or no timer is pending. -/
def runTimers (cfg : RetryConfig) : Nat → RetryState → RetryState
  | 0, s => s
  | fuel + 1, s =>
    if s.exitCode.isSome then s
    else if s.pendingTimers = 0 then s
    else runTimers cfg fuel
      (reconnectStep cfg false { s with pendingTimers := s.pendingTimers - 1 })

/-- The whole always-unreachable scenario: the initial `connect()` fails,
then every scheduled reconnect fails, until exit. -/
def alwaysUnreachableRun (cfg : RetryConfig) (fuel : Nat) : RetryState :=
  runTimers cfg fuel (connectStep cfg false initialRetryState)

/-! ### `disconnect` cleanup (part_004 lines 695-742) -/

/-- A pending-request entry (`RequestTiming`, part_004 lines 22-26). -/
structure RequestTiming where
  start : Nat
  method : String
  id : String

/-- The state `disconnect` touches: the two connected flags, the error
counter and the pending-request map (`activeRequests`, in insertion order). -/
structure ProxyState where
  isConnected : Bool
  transportConnected : Bool
  errorCount : Nat
  activeRequests : List (String × RequestTiming)

/-- The `logResponse` call made during cancellation (part_004 lines 149-178, called with
`success = false`): delete the entry and bump `errorCount`. -/
def logResponseCancel (id : String) (s : ProxyState) : ProxyState :=
  { s with activeRequests := s.activeRequests.filter (fun p => !(p.1 == id)),
           errorCount := s.errorCount + 1 }

/-- The cancellation loop of `disconnect`: one `logResponse(method, id,
false, undefined, 'Cancelled due to disconnect')` per entry; the second
component collects the cancellation log entries `(method, id)` in order. -/
def cancelLoop : List (String × RequestTiming) → ProxyState →
    ProxyState × List (String × String)
  | [], s => (s, [])
  | (id, t) :: rest, s =>
    let r := cancelLoop rest (logResponseCancel id s)
    (r.1, (t.method, id) :: r.2)

/-- The `disconnect` method (part_004 lines 695-742): clear both connected flags; when
the pending-request map is non-empty, log one cancellation per entry and
clear the map. Returns the new state and the cancellation log entries. -/
def disconnect (s : ProxyState) : ProxyState × List (String × String) :=
  let s0 : ProxyState := { s with isConnected := false, transportConnected := false }
  if s0.activeRequests.length > 0 then
    let r := cancelLoop s0.activeRequests s0
    ({ r.1 with activeRequests := [] }, r.2)
  else (s0, [])

theorem cancelLoop_length (es : List (String × RequestTiming)) (s : ProxyState) :
    (cancelLoop es s).2.length = es.length := by
  induction es generalizing s with
  | nil => rfl
  | cons e rest ih =>
    obtain ⟨id, t⟩ := e
    simp [cancelLoop, ih]

/-! ### Claim theorems -/

/-- C4: the forward operation classifies failures exclusively by this case
analysis: a non-success HTTP status fails as an HTTP-status error; an HTTP
success whose parsed body carries an RPC-level error object fails as a
protocol error carrying the remote message; an HTTP success whose body does
not parse as the expected envelope fails as a malformed-response error;
otherwise the envelope's `result` is returned. The four cases are mutually
exclusive and cover every HTTP response. -/
theorem forward_failure_classification (status : Nat) (statusText : String)
    (body : BodyParse) (e : RpcError) (r : Json) (pm : String) :
    forwardClassify (.response false status statusText body)
        = .error ("HTTP " ++ toString status ++ ": " ++ statusText) ∧
    forwardClassify (.response true status statusText (.envelope (some e) r))
        = .error ("Remote server error: " ++ e.message) ∧
    forwardClassify (.response true status statusText (.malformed pm))
        = .error "Invalid JSON response from server" ∧
    forwardClassify (.response true status statusText (.envelope none r))
        = .ok r :=
  ⟨rfl, rfl, rfl, rfl⟩

/-- Test whether `pat` is a final segment of `s`. -/
def endsWithList (s pat : List Char) : Bool :=
  startsWithList s.reverse pat.reverse

/-- The URL computation as claim C5 words it: rewrite only a trailing
`/sse` suffix to `/mcp`, leave endpoints without that suffix unchanged.
Stated for comparison with the source's first-occurrence substitution. -/
def claimedSuffixRewrite (endpoint : String) : String :=
  if endsWithList endpoint.data "/sse".data then
    ⟨endpoint.data.take (endpoint.data.length - 4) ++ "/mcp".data⟩
  else endpoint

/-- The trace of outbound POSTs of one `makeHttpRequest` call is one of
three shapes: forward only (already connected), liveness then forward
(lazy reconnect succeeded), or liveness only (lazy reconnect failed). -/
theorem makeHttpRequest_posts (cfg : HttpConfig) (c : Bool)
    (ping fetch : FetchOutcome) (method : String) :
    (makeHttpRequest cfg c ping fetch method).posts = [forwardPost cfg method] ∨
    (makeHttpRequest cfg c ping fetch method).posts
        = [livenessPost cfg, forwardPost cfg method] ∨
    (makeHttpRequest cfg c ping fetch method).posts = [livenessPost cfg] := by
  unfold makeHttpRequest forwardPhase
  by_cases hc : c = true
  · rw [if_pos hc]
    cases hfc : forwardClassify fetch <;> simp
  · rw [if_neg hc]
    cases ht : testConnectionResult ping
    · simp
    · cases hfc : forwardClassify fetch <;> simp

/-- C5 counterexample: `endpoint.replace('/sse', '/mcp')` rewrites the FIRST
occurrence of `/sse` anywhere, not the suffix. On
`https://sse.example.com/sse` the code rewrites the host and keeps the
`/sse` suffix, so the dispatched URL differs from the claim's; and
`http://h/sse/x`, which has no `/sse` suffix, is not dispatched unchanged. -/
theorem endpointRewrite_not_suffix_counterexample :
    mcpEndpoint ⟨"tok", "https://sse.example.com/sse"⟩
        = "https://mcp.example.com/sse" ∧
    claimedSuffixRewrite "https://sse.example.com/sse"
        = "https://sse.example.com/mcp" ∧
    mcpEndpoint ⟨"tok", "https://sse.example.com/sse"⟩
        ≠ claimedSuffixRewrite "https://sse.example.com/sse" ∧
    mcpEndpoint ⟨"tok", "http://h/sse/x"⟩ = "http://h/mcp/x" ∧
    claimedSuffixRewrite "http://h/sse/x" = "http://h/sse/x" := by
  refine ⟨rfl, by decide, by decide, rfl, by decide⟩

/-- C5 amended: every outbound HTTP POST (forwarding and the liveness
check alike) goes to the configured endpoint with the FIRST occurrence of
the substring `/sse` — anywhere in the string, not only as a suffix —
replaced by `/mcp`; endpoints in which `/sse` does not occur at all are
dispatched unchanged. -/
theorem endpointRewrite_first_occurrence (cfg : HttpConfig) (c : Bool)
    (ping fetch : FetchOutcome) (method : String) :
    (∀ p ∈ (makeHttpRequest cfg c ping fetch method).posts,
        p.url = replaceFirst cfg.endpoint "/sse" "/mcp") ∧
    (hasSubstr cfg.endpoint.data "/sse".data = false →
        replaceFirst cfg.endpoint "/sse" "/mcp" = cfg.endpoint) := by
  constructor
  · intro p hp
    rcases makeHttpRequest_posts cfg c ping fetch method with h | h | h
    · rw [h, List.mem_singleton] at hp
      rw [hp]; rfl
    · rw [h] at hp
      rcases List.mem_cons.mp hp with hq | hq
      · rw [hq]; rfl
      · rw [List.mem_singleton] at hq
        rw [hq]; rfl
    · rw [h, List.mem_singleton] at hp
      rw [hp]; rfl
  · exact replaceFirst_of_not_hasSubstr _ _ _

/-- Witness for the amended C5 theorem at a concrete configuration: the
liveness POST of a disconnected call uses the substituted URL, and an
endpoint not containing `/sse` is unchanged. -/
theorem endpointRewrite_first_occurrence_witness :
    (livenessPost ⟨"tok", "http://h/mcp"⟩).url
        = replaceFirst "http://h/mcp" "/sse" "/mcp" ∧
    replaceFirst "http://h/mcp" "/sse" "/mcp" = "http://h/mcp" := by
  have h := endpointRewrite_first_occurrence ⟨"tok", "http://h/mcp"⟩ false
    (.networkError "refused") (.networkError "refused") "ping"
  exact ⟨h.1 (livenessPost ⟨"tok", "http://h/mcp"⟩) (List.mem_singleton.mpr rfl),
         h.2 (by decide)⟩

/-- C7: a `tools/call` for tool `x` whose remote reply is an HTTP success
carrying the RPC error `{code: -32000, message: "boom"}` returns exactly
`{content: [{type: "text", text: "Error calling tool: Remote server error:
boom"}], isError: true}` — both through the per-handler catch of client.ts
and through the part_004 error boundary. -/
theorem toolsCall_rpc_error_scenario :
    toolsCallHandler ⟨"tok", "http://h/mcp"⟩ true
        (.response true 200 "OK" (.envelope none (.obj [])))
        (.response true 200 "OK" (.envelope (some ⟨-32000, "boom"⟩) (.obj []))) "x"
      = .obj [("content", .arr [.obj [("type", .str "text"),
            ("text", .str "Error calling tool: Remote server error: boom")]]),
          ("isError", .bool true)] ∧
    withErrorBoundary "tools/call" (.error (.jsError "Remote server error: boom"))
      = .obj [("content", .arr [.obj [("type", .str "text"),
            ("text", .str "Error calling tool: Remote server error: boom")]]),
          ("isError", .bool true)] :=
  ⟨rfl, rfl⟩

/-- C2 (code bug, evaluated at the failing input): with
`retryAttempts = 4`, `retryDelay = 1000` and the remote always unreachable,
the controller schedules 4 retries (each with delay 1000) and exits with
status 1 after only 3 consecutive connection failures — not 4 — because a
failed scheduled reconnect runs `handleConnectionError` twice (once inside
`connect`'s catch, once more in `reconnect`'s catch): after the single
failure of the first scheduled reconnect, the attempt counter has advanced
by 2, 3 retries have been scheduled and 2 retry timers are outstanding
simultaneously. A successful connection does reset the counter to 0. -/
theorem retryController_doubleCount_run :
    (alwaysUnreachableRun ⟨4, 1000⟩ 10).scheduledDelays = [1000, 1000, 1000, 1000] ∧
    (alwaysUnreachableRun ⟨4, 1000⟩ 10).exitCode = some 1 ∧
    (alwaysUnreachableRun ⟨4, 1000⟩ 10).failureCount = 3 ∧
    (runTimers ⟨4, 1000⟩ 1 (connectStep ⟨4, 1000⟩ false initialRetryState)).failureCount = 2 ∧
    (runTimers ⟨4, 1000⟩ 1 (connectStep ⟨4, 1000⟩ false initialRetryState)).scheduledDelays.length = 3 ∧
    (runTimers ⟨4, 1000⟩ 1 (connectStep ⟨4, 1000⟩ false initialRetryState)).pendingTimers = 2 ∧
    (connectStep ⟨4, 1000⟩ true
        { initialRetryState with currentRetryCount := 2, pendingTimers := 1 }).currentRetryCount = 0 :=
  ⟨rfl, rfl, rfl, rfl, rfl, rfl, rfl⟩

/-- C9: `disconnect` cleanup is idempotent: it logs exactly one
cancellation per pending-request entry (hence none when the mapping is
empty), leaves the mapping empty, and a second `disconnect` performs no
further cancellations. -/
theorem disconnect_cancels_all_pending_idempotently (s : ProxyState) :
    (disconnect s).2.length = s.activeRequests.length ∧
    (disconnect s).1.activeRequests = [] ∧
    (disconnect (disconnect s).1).2 = [] := by
  have hmain : ∀ t : ProxyState,
      (disconnect t).2.length = t.activeRequests.length ∧
      (disconnect t).1.activeRequests = [] := by
    intro t
    simp only [disconnect]
    by_cases h : t.activeRequests.length > 0
    · rw [if_pos h]
      exact ⟨cancelLoop_length _ _, rfl⟩
    · rw [if_neg h]
      have hnil : t.activeRequests = [] :=
        List.length_eq_zero.mp (Nat.eq_zero_of_not_pos h)
      exact ⟨by rw [hnil]; rfl, hnil⟩
  refine ⟨(hmain s).1, (hmain s).2, ?_⟩
  have hlen := (hmain (disconnect s).1).1
  rw [(hmain s).2] at hlen
  exact List.length_eq_zero.mp hlen

/-- C1: for every supported proxied method, when the core handler throws —
whatever the thrown value — the handler wrapped by the error boundary
completes normally (it is a total function into `Json`) and its result
matches that method's success-shape schema: a `tools` array for
`tools/list`, a `resources` array for `resources/list`, a `content` array
with `isError` for `tools/call`, a `contents` array for `resources/read`,
and an empty object for `ping`. -/
theorem errorBoundary_fallback_matches_schema (method : String) (t : Thrown)
    (hm : method ∈ supportedProxyMethods) :
    matchesSuccessShape method (withErrorBoundary method (Except.error t)) = true := by
  simp only [supportedProxyMethods, List.mem_cons, List.mem_singleton,
    List.not_mem_nil, or_false] at hm
  rcases hm with rfl | rfl | rfl | rfl | rfl <;> cases t <;> rfl

/-- Witness for C1 at `tools/call` and a concrete thrown error. -/
theorem errorBoundary_fallback_matches_schema_witness :
    "tools/call" ∈ supportedProxyMethods ∧
    matchesSuccessShape "tools/call"
      (withErrorBoundary "tools/call" (Except.error (Thrown.jsError "boom"))) = true :=
  ⟨by simp [supportedProxyMethods],
   errorBoundary_fallback_matches_schema "tools/call" (.jsError "boom")
     (by simp [supportedProxyMethods])⟩

/-- C3: (i) whenever the forward call is actually issued (the client was
connected, or the lazy liveness check passed) and it fails for any reason,
the `isConnected` flag after the call is false; (ii) every call of any
method issued while `isConnected` is false performs exactly one liveness
check (a `ping` POST), and that liveness check comes first on the wire,
before any forward of the requested method. -/
theorem failedForward_disconnects_and_lazy_single_liveness (cfg : HttpConfig)
    (c : Bool) (ping fetch : FetchOutcome) (method msg : String) :
    (forwardClassify fetch = .error msg →
      (c = true ∨ testConnectionResult ping = .ok ()) →
      (makeHttpRequest cfg c ping fetch method).connected = false) ∧
    (c = false →
      (makeHttpRequest cfg c ping fetch method).posts.countP
          (fun p => p.isLiveness) = 1 ∧
      (makeHttpRequest cfg c ping fetch method).posts.head?
          = some (livenessPost cfg)) := by
  constructor
  · intro hf hok
    unfold makeHttpRequest forwardPhase
    by_cases hc : c = true
    · rw [if_pos hc, hf]
    · rw [if_neg hc]
      rcases hok with hok | hok
      · exact absurd hok hc
      · rw [hok, hf]
  · intro hc
    subst hc
    unfold makeHttpRequest forwardPhase
    rw [if_neg (by simp)]
    cases ht : testConnectionResult ping
    · exact ⟨by simp [List.countP, List.countP.go, livenessPost, PostOp.isLiveness], rfl⟩
    · cases hfc : forwardClassify fetch <;>
        exact ⟨by simp [List.countP, List.countP.go, livenessPost, forwardPost,
                 PostOp.isLiveness], rfl⟩

/-- Witness for C3: a connected call whose fetch dies marks the client
disconnected, and a disconnected call performs exactly one liveness POST. -/
theorem failedForward_disconnects_and_lazy_single_liveness_witness :
    (makeHttpRequest ⟨"tok", "http://h/sse"⟩ true
        (.response true 200 "OK" (.envelope none (.obj [])))
        (.networkError "socket hang up") "tools/list").connected = false ∧
    (makeHttpRequest ⟨"tok", "http://h/sse"⟩ false
        (.response true 200 "OK" (.envelope none (.obj [])))
        (.response true 200 "OK" (.envelope none (.obj []))) "ping").posts.countP
      (fun p => p.isLiveness) = 1 :=
  ⟨(failedForward_disconnects_and_lazy_single_liveness ⟨"tok", "http://h/sse"⟩ true
      (.response true 200 "OK" (.envelope none (.obj [])))
      (.networkError "socket hang up") "tools/list" "socket hang up").1 rfl (Or.inl rfl),
   ((failedForward_disconnects_and_lazy_single_liveness ⟨"tok", "http://h/sse"⟩ false
      (.response true 200 "OK" (.envelope none (.obj [])))
      (.response true 200 "OK" (.envelope none (.obj []))) "ping" "unused").2 rfl).1⟩

/-- C6 counterexample: a caller declaring the empty string as its protocol
version differs from the fixed local version, yet no warning is logged —
the guard `if (clientProtocolVersion && ...)` treats the empty string as
falsy and skips the warning. -/
theorem initialize_empty_version_no_warning :
    "" ≠ mcpProtocolVersion ∧ (initializeHandler "" false).warned = false :=
  ⟨by decide, rfl⟩

/-- C6 amended: `initialize` is answered locally — the same fixed response
(protocol version `2024-11-05` and a capability descriptor advertising
`tools` and `resources`) is returned for every declared client version and
every value of the connected flag, with no POST to the remote endpoint; the
version-mismatch warning is logged exactly when the declared version is
non-empty and differs from the fixed local version. -/
theorem initialize_local_fixed_response (v : String) (c c2 : Bool) :
    (initializeHandler v c).response = initializeResponse ∧
    (initializeHandler v c).response.field "protocolVersion"
        = some (.str "2024-11-05") ∧
    (initializeHandler v c).response.field "capabilities"
        = some (.obj [("tools", .obj []), ("resources", .obj [])]) ∧
    (initializeHandler v c).posts = [] ∧
    (initializeHandler v c).response = (initializeHandler mcpProtocolVersion c2).response ∧
    ((initializeHandler v c).warned = true ↔ (v ≠ "" ∧ v ≠ mcpProtocolVersion)) := by
  refine ⟨rfl, rfl, rfl, rfl, rfl, ?_⟩
  constructor
  · intro hw
    have h1 : v.isEmpty = false ∧ v ≠ mcpProtocolVersion := by
      simpa [initializeHandler, Bool.and_eq_true, Bool.not_eq_true', bne_iff_ne]
        using hw
    refine ⟨fun he => ?_, h1.2⟩
    rw [he] at h1
    exact absurd h1.1 (by decide)
  · intro hv
    have hemp : v.isEmpty = false := by
      cases hfe : v.isEmpty
      · rfl
      · exact absurd ((String.isEmpty_iff v).mp hfe) hv.1
    simp [initializeHandler, hemp, bne_iff_ne, hv.2]

/-- Witness for C6 at a concrete mismatching non-empty version. -/
theorem initialize_local_fixed_response_witness :
    (initializeHandler "2025-06-18" false).warned = true ∧
    ("2025-06-18" : String) ≠ "" ∧ "2025-06-18" ≠ mcpProtocolVersion :=
  ⟨(initialize_local_fixed_response "2025-06-18" false true).2.2.2.2.2.mpr
      ⟨by decide, by decide⟩,
   by decide, by decide⟩

/-- C8 counterexample: in the part_004 error-boundary version, a
`resources/read` for the available URI `file:///a` whose forward fails
returns a fallback whose `uri` field is the empty string, not the requested
URI. -/
theorem resourcesRead_boundary_uri_counterexample :
    firstContentsUri (resourcesReadHandlerBoundary ⟨"tok", "http://h/mcp"⟩ true
        (.response true 200 "OK" (.envelope none (.obj [])))
        (.networkError "fetch failed") "file:///a") = some "" ∧
    ("file:///a" : String) ≠ "" :=
  ⟨rfl, by decide⟩

/-- C8 amended: when a `resources/read` forward fails, the fallback is a
single content item with a text body explaining the error; its `uri` field
equals the requested URI in the direct-handler version (client.ts, where
the code writes `request.params?.uri || ''`), but is ALWAYS the empty
string in the error-boundary version (part_004's `getSafeErrorResponse`),
even when the requested URI is available. -/
theorem resourcesRead_fallback_uri (cfg : HttpConfig) (c : Bool)
    (ping fetch : FetchOutcome) (uri msg : String)
    (hfail : (makeHttpRequest cfg c ping fetch "resources/read").outcome
        = .error msg) :
    firstContentsUri (resourcesReadHandlerDirect cfg c ping fetch uri) = some uri ∧
    contentsCount (resourcesReadHandlerDirect cfg c ping fetch uri) = some 1 ∧
    firstContentsText (resourcesReadHandlerDirect cfg c ping fetch uri)
        = some ("Error reading resource: " ++ msg) ∧
    firstContentsUri (resourcesReadHandlerBoundary cfg c ping fetch uri) = some "" ∧
    contentsCount (resourcesReadHandlerBoundary cfg c ping fetch uri) = some 1 ∧
    firstContentsText (resourcesReadHandlerBoundary cfg c ping fetch uri)
        = some ("Error reading resource: " ++ msg) := by
  unfold resourcesReadHandlerDirect resourcesReadHandlerBoundary
  rw [hfail]
  refine ⟨?_, rfl, rfl, rfl, rfl, rfl⟩
  show some (if uri.isEmpty then "" else uri) = some uri
  by_cases h : uri.isEmpty
  · rw [if_pos h, (String.isEmpty_iff uri).mp h]
  · rw [if_neg h]

/-- Witness for C8 at a concrete failing forward and available URI. -/
theorem resourcesRead_fallback_uri_witness :
    (makeHttpRequest ⟨"tok", "http://h/mcp"⟩ true
        (.response true 200 "OK" (.envelope none (.obj [])))
        (.networkError "fetch failed") "resources/read").outcome
      = .error "fetch failed" ∧
    firstContentsUri (resourcesReadHandlerDirect ⟨"tok", "http://h/mcp"⟩ true
        (.response true 200 "OK" (.envelope none (.obj [])))
        (.networkError "fetch failed") "file:///a") = some "file:///a" :=
  ⟨rfl,
   (resourcesRead_fallback_uri ⟨"tok", "http://h/mcp"⟩ true
      (.response true 200 "OK" (.envelope none (.obj [])))
      (.networkError "fetch failed") "file:///a" "fetch failed" rfl).1⟩

/-- C10: a call of any method while `isConnected` is false whose lazy
liveness check fails throws the single generic error `Cannot connect to
remote Cellium server` — whatever the liveness failure's own message was —
and no POST carrying the requested method is issued: the wire trace is the
liveness probe alone. -/
theorem lazyConnect_failure_generic_error (cfg : HttpConfig)
    (ping fetch : FetchOutcome) (method msg : String)
    (hping : testConnectionResult ping = .error msg) :
    (makeHttpRequest cfg false ping fetch method).outcome
        = .error "Cannot connect to remote Cellium server" ∧
    (makeHttpRequest cfg false ping fetch method).connected = false ∧
    (makeHttpRequest cfg false ping fetch method).posts = [livenessPost cfg] ∧
    (makeHttpRequest cfg false ping fetch method).posts.countP
        (fun p => p.isForward) = 0 := by
  unfold makeHttpRequest
  rw [if_neg (by simp), hping]
  exact ⟨rfl, rfl, rfl,
    by simp [List.countP, List.countP.go, livenessPost, PostOp.isForward]⟩

/-- Witness for C10 at a concrete failing liveness probe. -/
theorem lazyConnect_failure_generic_error_witness :
    testConnectionResult (.networkError "getaddrinfo ENOTFOUND")
        = .error "getaddrinfo ENOTFOUND" ∧
    (makeHttpRequest ⟨"tok", "http://h/sse"⟩ false
        (.networkError "getaddrinfo ENOTFOUND")
        (.response true 200 "OK" (.envelope none (.obj []))) "tools/list").outcome
      = .error "Cannot connect to remote Cellium server" :=
  ⟨rfl,
   (lazyConnect_failure_generic_error ⟨"tok", "http://h/sse"⟩
      (.networkError "getaddrinfo ENOTFOUND")
      (.response true 200 "OK" (.envelope none (.obj []))) "tools/list"
      "getaddrinfo ENOTFOUND" rfl).1⟩

end Cellium
